import Mathlib

/-!
Verification of `clinic/static/clinic/js/scripts.js`.

A shallow embedding of the single source file of the repository, a DOM script
that on `DOMContentLoaded`:
* attaches a `change` listener to the specialty control `id_specialty` which
  either (empty selection) resets the doctor control `id_doctor` to a
  placeholder, or (non-empty selection) fetches
  `/get-doctors/?specialty_id=...` and rebuilds the doctor control from the
  JSON array of the response;
* guards a date control `id_date` by an `if (dateInput)` check before
  attaching an (empty) listener.

The embedding models:
* the JavaScript values produced by `response.json()` and the semantics of
  property access (`doctor.id`, `doctor.name`) and of the string coercions
  performed by the assignments `option.value = ...` and
  `option.textContent = ...`;
* the `<option>` children of the doctor-selection control as a list of
  records;
* the event-driven behaviour (change events, asynchronous response arrivals,
  in-flight requests) as a step function on an explicit page state.
-/

namespace Clinic

/-- JavaScript values, as far as the script can observe them.  `undef` is the
result of reading an absent property; the remaining constructors cover every
value that `JSON.parse` can produce (numbers are modelled as integers: the
ids the server sends are integral database keys). -/
inductive JsValue where
  | undef : JsValue
  | null : JsValue
  | bool (b : Bool) : JsValue
  | num (n : Int) : JsValue
  | str (s : String) : JsValue
  | arr (elems : List JsValue) : JsValue
  | obj (fields : List (String × JsValue)) : JsValue

/-- The only exception class the script can raise: dereferencing `null` or
`undefined` (property access on them, or member assignment on them). -/
inductive JsError where
  | typeError : JsError
deriving DecidableEq

/-- Property access `v[k]`: throws a `TypeError` on `null` and `undefined`,
returns the field (or `undefined` when absent) on objects, `length` on
strings and arrays, and `undefined` on the other primitives. -/
def getProp : JsValue → String → Except JsError JsValue
  | JsValue.undef, _ => Except.error JsError.typeError
  | JsValue.null, _ => Except.error JsError.typeError
  | JsValue.bool _, _ => Except.ok JsValue.undef
  | JsValue.num _, _ => Except.ok JsValue.undef
  | JsValue.str s, k =>
      Except.ok (if k = "length" then JsValue.num s.length else JsValue.undef)
  | JsValue.arr es, k =>
      Except.ok (if k = "length" then JsValue.num es.length else JsValue.undef)
  | JsValue.obj fs, k => Except.ok ((fs.lookup k).getD JsValue.undef)

mutual

/-- JavaScript `ToString`, as applied when a value is assigned to the
`DOMString` attribute `option.value`.  Arrays stringify as their elements
joined by commas, with `null` and `undefined` elements contributing the
empty string. -/
def jsToString : JsValue → String
  | JsValue.undef => "undefined"
  | JsValue.null => "null"
  | JsValue.bool b => cond b "true" "false"
  | JsValue.num n => toString n
  | JsValue.str s => s
  | JsValue.arr es => jsJoinElems es
  | JsValue.obj _ => "[object Object]"

/-- Join of array elements for `Array.prototype.toString`. -/
def jsJoinElems : List JsValue → String
  | [] => ""
  | v :: rest =>
      (match v with
       | JsValue.undef => ""
       | JsValue.null => ""
       | w => jsToString w) ++
      (match rest with
       | [] => ""
       | _ => "," ++ jsJoinElems rest)

end

/-- String stored by an assignment to `textContent`, whose IDL type is
`[LegacyNullToEmptyString] DOMString`: `null` becomes the empty string,
everything else goes through `ToString`. -/
def textContentString : JsValue → String
  | JsValue.null => ""
  | v => jsToString v

/-- One `<option>` child of the doctor-selection control.  `value` is the
`value` content attribute (`none` when the attribute was never set, as for
options created by `createElement` whose `value` is never assigned), `text`
its text content, and `disabled` its `disabled` attribute — the script never
sets it, so it is `false` on every option the script creates. -/
structure DomOption where
  value : Option String
  text : String
  disabled : Bool
deriving DecidableEq, Repr

/-- The single option installed by the assignment
`doctorSelect.innerHTML = "<option value=...>Сначала выберите специальность</option>"`
(the text means "choose a specialty first"; the fragment carries an explicit
empty `value` attribute and no `disabled` attribute). -/
def chooseSpecialtyOption : DomOption :=
  { value := some "", text := "Сначала выберите специальность", disabled := false }

/-- The single option installed on an empty doctor array:
`option.textContent = ...` with the text `Нет доступных врачей` ("no doctors
available"); neither a `value` nor a `disabled` attribute is set. -/
def noDoctorsOption : DomOption :=
  { value := none, text := "Нет доступных врачей", disabled := false }

/-- The URL of the lookup request, built by the template literal in
`fetch(...)`. -/
def doctorsUrl (specialtyId : String) : String :=
  "/get-doctors/?specialty_id=" ++ specialtyId

/-- The `data.forEach(doctor => ...)` loop of the success callback: for each
element, create an option, assign `option.value = doctor.id` and
`option.textContent = doctor.name`, and append it.  A thrown `TypeError`
(element `null`, which property access rejects) stops the iteration: the
options appended so far remain and the flag records that the callback threw
— the resulting rejection is unobserved, the chain having no catch
handler. -/
def buildDoctorOptions : List JsValue → List DomOption × Bool
  | [] => ([], false)
  | d :: rest =>
      match getProp d "id" with
      | Except.error _ => ([], true)
      | Except.ok idv =>
          match getProp d "name" with
          | Except.error _ => ([], true)
          | Except.ok namev =>
              let opt : DomOption :=
                { value := some (jsToString idv)
                  text := textContentString namev
                  disabled := false }
              let built := buildDoctorOptions rest
              (opt :: built.1, built.2)

/-- The success callback `data => { ... }` of the fetch chain, applied to the
parsed JSON array.  Its first statement clears the control
(`doctorSelect.innerHTML` is assigned the empty string), so its result
*replaces* the previous contents: a non-empty array is rebuilt option by
option, an empty one yields the single "no doctors available" placeholder.
The boolean records whether the callback threw partway. -/
def respCallback (data : List JsValue) : List DomOption × Bool :=
  if data.length > 0 then buildDoctorOptions data
  else ([noDoctorsOption], false)

/-- Outcome of one issued request, as the promise chain observes it:
`failure` covers both a network error (`fetch` rejects) and a body that is
not valid JSON (`response.json()` rejects) — in both cases the success
callback never runs; `success` carries the parsed JSON array. -/
inductive FetchOutcome where
  | failure : FetchOutcome
  | success (data : List JsValue) : FetchOutcome

/-- A doctor record as the directory service returns it: `{id, name}`. -/
structure Doctor where
  id : Int
  name : String
deriving DecidableEq, Repr

/-- The JSON encoding of a doctor record. -/
def Doctor.toJson (d : Doctor) : JsValue :=
  JsValue.obj [("id", JsValue.num d.id), ("name", JsValue.str d.name)]

/-- The option the success callback creates for a doctor record:
value = the id of the doctor (stringified by the `DOMString` assignment),
label = the name of the doctor. -/
def Doctor.toOption (d : Doctor) : DomOption :=
  { value := some (toString d.id), text := d.name, disabled := false }

/-- The page state the script can read or write.  `specialtyValue`,
`specialtyOptions` and `dateValue` model the specialty and date controls,
which the handler never writes; `doctorOptions` models the children of the
doctor control; `issuedRequests` is the log of fetches issued so far, in
order; `pending` holds the indices (into `issuedRequests`) of requests whose
response has not yet arrived. -/
structure PageState where
  specialtyValue : String
  specialtyOptions : List DomOption
  dateValue : String
  doctorOptions : List DomOption
  issuedRequests : List String
  pending : List Nat
deriving DecidableEq, Repr

/-- The user changing the selected specialty — the action that precedes a
`change` event; it is the browser, not the script, that sets the value of
the control. -/
def setSpecialty (st : PageState) (v : String) : PageState :=
  { st with specialtyValue := v }

/-- Events the script reacts to: the `change` event on `id_specialty`,
running the handler synchronously up to its suspension point, and the
arrival of the response to pending request `rid`, running the promise
callbacks. -/
inductive Event where
  | specialtyChanged : Event
  | arrive (rid : Nat) (outcome : FetchOutcome) : Event

/-- One step of the event-driven execution — the change handler of the
source, embedded directly:

* `specialtyChanged`: read `this.value`; if truthy (a non-empty string),
  issue the fetch of `doctorsUrl` — nothing else happens until the response
  arrives; otherwise overwrite the doctor control with the "choose a
  specialty first" placeholder.
* `arrive rid outcome`: a pending response resolves its promise chain; on
  failure no callback runs (no catch handler exists) and the doctor control
  is untouched; on success the callback replaces the contents of the control
  with `respCallback data`. -/
def step (st : PageState) : Event → PageState
  | Event.specialtyChanged =>
      if st.specialtyValue ≠ "" then
        { st with
          issuedRequests := st.issuedRequests ++ [doctorsUrl st.specialtyValue]
          pending := st.pending ++ [st.issuedRequests.length] }
      else
        { st with doctorOptions := [chooseSpecialtyOption] }
  | Event.arrive rid outcome =>
      if rid ∈ st.pending then
        { st with
          pending := st.pending.erase rid
          doctorOptions :=
            match outcome with
            | FetchOutcome.failure => st.doctorOptions
            | FetchOutcome.success data => (respCallback data).1 }
      else st

/-- A change event followed immediately by the arrival of the response it
triggered (when one was issued): the complete processing of one specialty
selection against one server outcome. -/
def completedChange (outcome : FetchOutcome) (st : PageState) : PageState :=
  let st1 := step st Event.specialtyChanged
  if st.specialtyValue ≠ "" then
    step st1 (Event.arrive st.issuedRequests.length outcome)
  else st1

/-! Setup model for the `DOMContentLoaded` handler. -/

/-- Presence of the three controls the script looks up by id. -/
structure Dom where
  hasSpecialty : Bool
  hasDoctor : Bool
  hasDate : Bool
deriving DecidableEq, Repr

/-- Which listeners the `DOMContentLoaded` handler managed to attach. -/
structure SetupResult where
  specialtyListener : Bool
  dateListener : Bool
deriving DecidableEq, Repr

/-- The `DOMContentLoaded` handler.  When the specialty control is absent,
`document.getElementById` returns `null` and the immediate
`.addEventListener` call on it throws a `TypeError`, aborting setup before
the date control is even looked up.  The doctor control is *not* looked up
at setup — its lookup happens inside the change handler — so `hasDoctor`
plays no role here.  The date control is guarded by `if (dateInput)`, so its
absence merely skips attaching the (empty) date listener. -/
def domContentLoaded (dom : Dom) : Except JsError SetupResult :=
  if dom.hasSpecialty then
    Except.ok { specialtyListener := true, dateListener := dom.hasDate }
  else Except.error JsError.typeError

/-- The change handler run when the doctor control is absent: `doctorSelect`
is `null`.  With an empty selection the assignment to
`doctorSelect.innerHTML` throws at once; with a non-empty selection the
fetch is still issued (returned as the request list) and the synchronous
part of the handler completes — the null dereference is deferred to the
response callback. -/
def changeHandlerNoDoctor (specialtyId : String) : Except JsError (List String) :=
  if specialtyId ≠ "" then Except.ok [doctorsUrl specialtyId]
  else Except.error JsError.typeError

/-- The success callback when the doctor control is absent: its first
statement assigns to `doctorSelect.innerHTML`, dereferencing `null`, and
throws whatever the data. -/
def respCallbackNoDoctor (_data : List JsValue) : Except JsError (List DomOption) :=
  Except.error JsError.typeError

/-- `JSON.parse` never produces `undefined`; `null` is the only nullish JSON
value.  Array elements satisfying this predicate make the rebuild loop
throw. -/
def jsNullish : JsValue → Bool
  | JsValue.null => true
  | JsValue.undef => true
  | _ => false

/-! Helper lemmas. -/

theorem jsToString_num (n : Int) : jsToString (JsValue.num n) = toString n := rfl

theorem textContentString_str (s : String) :
    textContentString (JsValue.str s) = s := rfl

theorem getProp_doctor_id (d : Doctor) :
    getProp d.toJson "id" = Except.ok (JsValue.num d.id) := rfl

theorem getProp_doctor_name (d : Doctor) :
    getProp d.toJson "name" = Except.ok (JsValue.str d.name) := rfl

theorem step_change_of_ne (st : PageState) (h : st.specialtyValue ≠ "") :
    step st Event.specialtyChanged =
      { st with
        issuedRequests := st.issuedRequests ++ [doctorsUrl st.specialtyValue]
        pending := st.pending ++ [st.issuedRequests.length] } := by
  simp [step, h]

theorem step_change_of_eq (st : PageState) (h : st.specialtyValue = "") :
    step st Event.specialtyChanged =
      { st with doctorOptions := [chooseSpecialtyOption] } := by
  simp [step, h]

theorem step_arrive_failure_of_mem (st : PageState) (rid : Nat)
    (h : rid ∈ st.pending) :
    step st (Event.arrive rid FetchOutcome.failure) =
      { st with pending := st.pending.erase rid } := by
  simp [step, h]

theorem step_arrive_success_of_mem (st : PageState) (rid : Nat)
    (data : List JsValue) (h : rid ∈ st.pending) :
    step st (Event.arrive rid (FetchOutcome.success data)) =
      { st with
        pending := st.pending.erase rid
        doctorOptions := (respCallback data).1 } := by
  simp [step, h]

theorem buildDoctorOptions_map (ds : List Doctor) :
    buildDoctorOptions (ds.map Doctor.toJson) = (ds.map Doctor.toOption, false) := by
  induction ds with
  | nil => rfl
  | cons d rest ih =>
      simp [buildDoctorOptions, getProp_doctor_id, getProp_doctor_name, ih,
        jsToString_num, textContentString_str, Doctor.toOption]

theorem respCallback_map_of_ne_nil (ds : List Doctor) (h : ds ≠ []) :
    respCallback (ds.map Doctor.toJson) = (ds.map Doctor.toOption, false) := by
  have hl : 0 < (ds.map Doctor.toJson).length := by
    simpa [List.length_map, List.length_pos] using h
  simp [respCallback, hl, buildDoctorOptions_map, h]

/-! Claim theorems. -/

/-- C1: for every specialty-change event with a non-empty `SpecialtyId` whose
lookup succeeds with a non-empty array of N doctor records, the
doctor-selection control ends with exactly N options, in the order of the
response array, the option at index k having value = the id of doctor k and
label = the name of doctor k. -/
theorem change_success_nonempty_rebuilds (st : PageState) (ds : List Doctor)
    (h1 : st.specialtyValue ≠ "") (h2 : ds ≠ []) :
    (step (step st Event.specialtyChanged)
        (Event.arrive st.issuedRequests.length
          (FetchOutcome.success (ds.map Doctor.toJson)))).doctorOptions
      = ds.map Doctor.toOption ∧
    (step (step st Event.specialtyChanged)
        (Event.arrive st.issuedRequests.length
          (FetchOutcome.success (ds.map Doctor.toJson)))).doctorOptions.length
      = ds.length ∧
    ∀ k : Nat,
      (step (step st Event.specialtyChanged)
        (Event.arrive st.issuedRequests.length
          (FetchOutcome.success (ds.map Doctor.toJson)))).doctorOptions[k]?
        = (ds[k]?).map Doctor.toOption := by
  have hmem : st.issuedRequests.length ∈ (step st Event.specialtyChanged).pending := by
    simp [step_change_of_ne st h1]
  have hopts :
      (step (step st Event.specialtyChanged)
        (Event.arrive st.issuedRequests.length
          (FetchOutcome.success (ds.map Doctor.toJson)))).doctorOptions
        = ds.map Doctor.toOption := by
    rw [step_arrive_success_of_mem _ _ _ hmem]
    simp [respCallback_map_of_ne_nil ds h2]
  refine ⟨hopts, ?_, ?_⟩
  · rw [hopts]; simp
  · intro k; rw [hopts]; simp [List.getElem?_map]

/-- Witness for C1 at the example of the spec: `specialty_id=3` with doctors
`[{id: 7, name: Dr. Ivanova}, {id: 9, name: Dr. Petrov}]`. -/
theorem change_success_nonempty_rebuilds_witness :
    (PageState.mk "3" [] "" [] [] []).specialtyValue ≠ "" ∧
    ([(⟨7, "Dr. Ivanova"⟩ : Doctor), ⟨9, "Dr. Petrov"⟩] ≠ ([] : List Doctor)) ∧
    (step (step (PageState.mk "3" [] "" [] [] []) Event.specialtyChanged)
        (Event.arrive 0
          (FetchOutcome.success
            ([(⟨7, "Dr. Ivanova"⟩ : Doctor), ⟨9, "Dr. Petrov"⟩].map Doctor.toJson)))).doctorOptions
      = [(⟨7, "Dr. Ivanova"⟩ : Doctor), ⟨9, "Dr. Petrov"⟩].map Doctor.toOption :=
  ⟨by decide, by decide,
    (change_success_nonempty_rebuilds (PageState.mk "3" [] "" [] [] [])
      [⟨7, "Dr. Ivanova"⟩, ⟨9, "Dr. Petrov"⟩] (by decide) (by decide)).1⟩

/-- C2: for every specialty-change event where the selected `SpecialtyId` is
the empty string, the doctor-selection control ends with exactly the one
"choose a specialty first" placeholder option, and no network request is
issued. -/
theorem change_empty_resets_placeholder (st : PageState)
    (h : st.specialtyValue = "") :
    (step st Event.specialtyChanged).doctorOptions = [chooseSpecialtyOption] ∧
    (step st Event.specialtyChanged).doctorOptions.length = 1 ∧
    (step st Event.specialtyChanged).issuedRequests = st.issuedRequests ∧
    (step st Event.specialtyChanged).pending = st.pending := by
  simp [step_change_of_eq st h]

/-- Witness for C2: an empty selection on a state with some previous doctor
options. -/
theorem change_empty_resets_placeholder_witness :
    (PageState.mk "" [] "" [noDoctorsOption] ["u"] [] : PageState).specialtyValue = "" ∧
    (step (PageState.mk "" [] "" [noDoctorsOption] ["u"] []) Event.specialtyChanged).doctorOptions
      = [chooseSpecialtyOption] :=
  ⟨rfl, (change_empty_resets_placeholder (PageState.mk "" [] "" [noDoctorsOption] ["u"] []) rfl).1⟩

/-- C3 counterexample: on a successful lookup with an empty array the control
does end with exactly one informational option, but that option is *not*
non-selectable — the script never sets the `disabled` attribute, so the
claim "exactly one non-selectable option" is false on the concrete trace
where specialty `5` is selected and the server answers with `[]`. -/
theorem no_doctors_option_is_selectable :
    ¬ ((step (step (PageState.mk "5" [] "" [] [] []) Event.specialtyChanged)
          (Event.arrive 0 (FetchOutcome.success []))).doctorOptions.length = 1 ∧
       ∀ o ∈ (step (step (PageState.mk "5" [] "" [] [] []) Event.specialtyChanged)
          (Event.arrive 0 (FetchOutcome.success []))).doctorOptions,
         o.disabled = true) := by
  decide

/-- C3 amended: for every specialty-change event with a non-empty
`SpecialtyId` whose lookup succeeds with an empty array, the
doctor-selection control ends with exactly one informational option meaning
"no doctors available"; the option is an ordinary selectable option (its
`disabled` attribute is never set). -/
theorem empty_array_yields_placeholder (st : PageState)
    (h : st.specialtyValue ≠ "") :
    (step (step st Event.specialtyChanged)
        (Event.arrive st.issuedRequests.length (FetchOutcome.success []))).doctorOptions
      = [noDoctorsOption] ∧
    noDoctorsOption.disabled = false := by
  have hmem : st.issuedRequests.length ∈ (step st Event.specialtyChanged).pending := by
    simp [step_change_of_ne st h]
  rw [step_arrive_success_of_mem _ _ _ hmem]
  exact ⟨by simp [respCallback], rfl⟩

/-- Witness for the amended C3. -/
theorem empty_array_yields_placeholder_witness :
    (PageState.mk "4" [] "" [] [] []).specialtyValue ≠ "" ∧
    (step (step (PageState.mk "4" [] "" [] [] []) Event.specialtyChanged)
        (Event.arrive 0 (FetchOutcome.success []))).doctorOptions
      = [noDoctorsOption] :=
  ⟨by decide, (empty_array_yields_placeholder (PageState.mk "4" [] "" [] [] []) (by decide)).1⟩

/-- C4: for every specialty-change event with a non-empty `SpecialtyId`
whose lookup fails (network error or JSON parse error, both of which reject
the promise chain before the success callback), the contents of the
doctor-selection control are exactly what they were before the change
event. -/
theorem failed_lookup_leaves_options (st : PageState)
    (h : st.specialtyValue ≠ "") :
    (step (step st Event.specialtyChanged)
        (Event.arrive st.issuedRequests.length FetchOutcome.failure)).doctorOptions
      = st.doctorOptions := by
  have hmem : st.issuedRequests.length ∈ (step st Event.specialtyChanged).pending := by
    simp [step_change_of_ne st h]
  rw [step_arrive_failure_of_mem _ _ hmem]
  simp [step_change_of_ne st h]

/-- Witness for C4: a failing lookup on a state whose control already holds
an option list leaves that list intact. -/
theorem failed_lookup_leaves_options_witness :
    (PageState.mk "2" [] "" [chooseSpecialtyOption] [] []).specialtyValue ≠ "" ∧
    (step (step (PageState.mk "2" [] "" [chooseSpecialtyOption] [] []) Event.specialtyChanged)
        (Event.arrive 0 FetchOutcome.failure)).doctorOptions
      = [chooseSpecialtyOption] :=
  ⟨by decide,
    failed_lookup_leaves_options (PageState.mk "2" [] "" [chooseSpecialtyOption] [] []) (by decide)⟩

/-- C5: when the specialty selection is changed twice in quick succession
(specialty A, then specialty B) and the response for A arrives after the
response for B, the final contents of the doctor-selection control reflect
the doctor list of A — the last-arriving response overwrites the control even
though it corresponds to a stale selection.  Request 0 is the fetch for A,
request 1 the fetch for B. -/
theorem stale_response_wins (so opts0 : List DomOption) (dv A B : String)
    (dsA dsB : List Doctor) (hA : A ≠ "") (hB : B ≠ "") (hdsA : dsA ≠ []) :
    (step
      (step
        (step (setSpecialty (step (PageState.mk A so dv opts0 [] []) Event.specialtyChanged) B)
          Event.specialtyChanged)
        (Event.arrive 1 (FetchOutcome.success (dsB.map Doctor.toJson))))
      (Event.arrive 0 (FetchOutcome.success (dsA.map Doctor.toJson)))).doctorOptions
    = dsA.map Doctor.toOption := by
  have h1 : step (PageState.mk A so dv opts0 [] []) Event.specialtyChanged
      = PageState.mk A so dv opts0 [doctorsUrl A] [0] := by
    rw [step_change_of_ne _ hA]
    rfl
  have h2 : setSpecialty (PageState.mk A so dv opts0 [doctorsUrl A] [0]) B
      = PageState.mk B so dv opts0 [doctorsUrl A] [0] := rfl
  have h3 : step (PageState.mk B so dv opts0 [doctorsUrl A] [0]) Event.specialtyChanged
      = PageState.mk B so dv opts0 [doctorsUrl A, doctorsUrl B] [0, 1] := by
    rw [step_change_of_ne _ hB]
    rfl
  have h4 : step (PageState.mk B so dv opts0 [doctorsUrl A, doctorsUrl B] [0, 1])
        (Event.arrive 1 (FetchOutcome.success (dsB.map Doctor.toJson)))
      = PageState.mk B so dv (respCallback (dsB.map Doctor.toJson)).1
          [doctorsUrl A, doctorsUrl B] [0] := by
    rw [step_arrive_success_of_mem _ _ _ (by simp)]
    rfl
  have h5 : step (PageState.mk B so dv (respCallback (dsB.map Doctor.toJson)).1
          [doctorsUrl A, doctorsUrl B] [0])
        (Event.arrive 0 (FetchOutcome.success (dsA.map Doctor.toJson)))
      = PageState.mk B so dv (dsA.map Doctor.toOption)
          [doctorsUrl A, doctorsUrl B] [] := by
    rw [step_arrive_success_of_mem _ _ _ (by simp)]
    simp [respCallback_map_of_ne_nil dsA hdsA]
  rw [h1, h2, h3, h4, h5]

/-- Witness for C5: specialty `1` then specialty `2`, the response for `2`
arriving first. -/
theorem stale_response_wins_witness :
    ("1" : String) ≠ "" ∧ ("2" : String) ≠ "" ∧
    ([(⟨7, "Dr. Ivanova"⟩ : Doctor)] ≠ ([] : List Doctor)) ∧
    (step
      (step
        (step (setSpecialty (step (PageState.mk "1" [] "" [] [] []) Event.specialtyChanged) "2")
          Event.specialtyChanged)
        (Event.arrive 1 (FetchOutcome.success ([(⟨8, "Dr. Sidorov"⟩ : Doctor)].map Doctor.toJson))))
      (Event.arrive 0 (FetchOutcome.success ([(⟨7, "Dr. Ivanova"⟩ : Doctor)].map Doctor.toJson)))).doctorOptions
    = [(⟨7, "Dr. Ivanova"⟩ : Doctor)].map Doctor.toOption :=
  ⟨by decide, by decide, by decide,
    stale_response_wins [] [] "" "1" "2" [⟨7, "Dr. Ivanova"⟩] [⟨8, "Dr. Sidorov"⟩]
      (by decide) (by decide) (by decide)⟩

/-- C6 counterexample: with the specialty and date controls present but the
doctor control absent, the `DOMContentLoaded` setup *succeeds* — the doctor
control is only looked up inside the change handler, so its absence does not
cause a failure at setup, contrary to the claim. -/
theorem missing_doctor_setup_succeeds :
    domContentLoaded { hasSpecialty := true, hasDoctor := false, hasDate := true }
      = Except.ok { specialtyListener := true, dateListener := true } ∧
    domContentLoaded { hasSpecialty := true, hasDoctor := false, hasDate := true }
      ≠ Except.error JsError.typeError :=
  ⟨rfl, fun h => Except.noConfusion h⟩

/-- C6 amended: at setup, absence of the date control is tolerated (it is
checked before its listener is attached) and absence of the doctor control is
also tolerated — setup fails if and only if the specialty control is absent.
Absence of the doctor control is still unguarded, but the failure occurs
when a change event is handled (at once for an empty selection; in the
response callback for a non-empty one), not at setup. -/
theorem setup_guards (dom : Dom) :
    (domContentLoaded dom = Except.error JsError.typeError ↔ dom.hasSpecialty = false) ∧
    (dom.hasSpecialty = true →
      domContentLoaded dom
        = Except.ok { specialtyListener := true, dateListener := dom.hasDate }) ∧
    changeHandlerNoDoctor "" = Except.error JsError.typeError ∧
    (∀ data : List JsValue, respCallbackNoDoctor data = Except.error JsError.typeError) := by
  obtain ⟨hs, hdoc, hdate⟩ := dom
  cases hs <;> cases hdate <;>
    simp [domContentLoaded, changeHandlerNoDoctor, respCallbackNoDoctor]

/-- Witness for the amended C6: specialty control present, date control
absent. -/
theorem setup_guards_witness :
    (Dom.mk true true false).hasSpecialty = true ∧
    domContentLoaded (Dom.mk true true false)
      = Except.ok { specialtyListener := true, dateListener := false } :=
  ⟨rfl, (setup_guards (Dom.mk true true false)).2.1 rfl⟩

/-- C7: every specialty-change event with a non-empty `SpecialtyId` issues
exactly one fresh network request (the request log grows by exactly the one
URL for that id, regardless of any earlier identical request — nothing is
cached), and a completed event rebuilds the contents of the doctor-selection
control from the response alone, discarding rather than editing the previous
contents. -/
theorem fresh_request_and_full_rebuild (st : PageState) :
    (st.specialtyValue ≠ "" →
      (step st Event.specialtyChanged).issuedRequests
        = st.issuedRequests ++ [doctorsUrl st.specialtyValue] ∧
      (step st Event.specialtyChanged).issuedRequests.length
        = st.issuedRequests.length + 1) ∧
    (∀ rid : Nat, ∀ data : List JsValue, rid ∈ st.pending →
      (step st (Event.arrive rid (FetchOutcome.success data))).doctorOptions
        = (respCallback data).1) := by
  constructor
  · intro h
    rw [step_change_of_ne st h]
    simp
  · intro rid data h
    rw [step_arrive_success_of_mem _ _ _ h]

/-- Witness for C7: a change on specialty `3` appends its URL to the log even
though the same URL was fetched before, and an arriving response rebuilds the
control from the response alone. -/
theorem fresh_request_and_full_rebuild_witness :
    (step (PageState.mk "3" [] "" [] [doctorsUrl "3"] []) Event.specialtyChanged).issuedRequests
      = [doctorsUrl "3"] ++ [doctorsUrl "3"] ∧
    (step (PageState.mk "9" [] "" [chooseSpecialtyOption] ["u"] [0])
        (Event.arrive 0 (FetchOutcome.success []))).doctorOptions
      = (respCallback []).1 :=
  ⟨((fresh_request_and_full_rebuild (PageState.mk "3" [] "" [] [doctorsUrl "3"] [])).1 (by decide)).1,
   (fresh_request_and_full_rebuild (PageState.mk "9" [] "" [chooseSpecialtyOption] ["u"] [0])).2
     0 [] (by decide)⟩

theorem step_specialtyValue (st : PageState) (e : Event) :
    (step st e).specialtyValue = st.specialtyValue := by
  cases e with
  | specialtyChanged => by_cases h : st.specialtyValue = "" <;> simp [step, h]
  | arrive rid outcome =>
      by_cases h : rid ∈ st.pending
      · cases outcome <;> simp [step, h]
      · simp [step, h]

theorem completedChange_specialtyValue (outcome : FetchOutcome) (st : PageState) :
    (completedChange outcome st).specialtyValue = st.specialtyValue := by
  unfold completedChange
  by_cases h : st.specialtyValue = ""
  · simp [h, step_specialtyValue]
  · simp [h, step_specialtyValue]

theorem completedChange_doctorOptions (outcome : FetchOutcome) (st : PageState) :
    (completedChange outcome st).doctorOptions =
      if st.specialtyValue = "" then [chooseSpecialtyOption]
      else
        match outcome with
        | FetchOutcome.failure => st.doctorOptions
        | FetchOutcome.success data => (respCallback data).1 := by
  by_cases h : st.specialtyValue = ""
  · simp [completedChange, h, step_change_of_eq st h]
  · have hmem : st.issuedRequests.length ∈ (step st Event.specialtyChanged).pending := by
      simp [step_change_of_ne st h]
    have hL : completedChange outcome st
        = step (step st Event.specialtyChanged)
            (Event.arrive st.issuedRequests.length outcome) := by
      simp [completedChange, h]
    rw [hL, if_neg h]
    cases outcome with
    | failure =>
        rw [step_arrive_failure_of_mem _ _ hmem]
        simp [step_change_of_ne st h]
    | success data =>
        rw [step_arrive_success_of_mem _ _ _ hmem]

/-- C8: processing the same specialty selection twice against the same server
outcome is idempotent — a second completed change event with identical
inputs leaves the doctor-selection control with the same option set as the
first. -/
theorem repeat_change_idempotent (outcome : FetchOutcome) (st : PageState) :
    (completedChange outcome (completedChange outcome st)).doctorOptions
      = (completedChange outcome st).doctorOptions := by
  by_cases h : st.specialtyValue = "" <;>
    cases outcome <;>
      simp [completedChange_doctorOptions, completedChange_specialtyValue, h]

/-- C9: the change handler only writes the doctor-selection control — for
every event the specialty control (value and options) and the date control
are left unchanged.  (`issuedRequests` and `pending` model the network
environment, not page state.) -/
theorem handler_frame (st : PageState) (e : Event) :
    (step st e).specialtyValue = st.specialtyValue ∧
    (step st e).specialtyOptions = st.specialtyOptions ∧
    (step st e).dateValue = st.dateValue := by
  cases e with
  | specialtyChanged => by_cases h : st.specialtyValue = "" <;> simp [step, h]
  | arrive rid outcome =>
      by_cases h : rid ∈ st.pending
      · cases outcome <;> simp [step, h]
      · simp [step, h]

/-- C10 counterexample: a JSON array may contain `null`; on the response
`[null]` the rebuild loop throws a `TypeError` at `doctor.id` and produces
zero options for the one array element, so the claim that processing any
JSON-array response completes without throwing with one option per element
is false. -/
theorem null_element_aborts_rebuild :
    ¬ ((respCallback [JsValue.null]).2 = false ∧
       (respCallback [JsValue.null]).1.length = [JsValue.null].length) := by
  decide

theorem buildDoctorOptions_total (data : List JsValue)
    (h : ∀ v ∈ data, jsNullish v = false) :
    (buildDoctorOptions data).2 = false ∧
    (buildDoctorOptions data).1.length = data.length := by
  induction data with
  | nil => simp [buildDoctorOptions]
  | cons d rest ih =>
      have hd : jsNullish d = false := h d (List.mem_cons_self d rest)
      have hrest : ∀ v ∈ rest, jsNullish v = false :=
        fun v hv => h v (List.mem_cons_of_mem d hv)
      obtain ⟨ih1, ih2⟩ := ih hrest
      cases d with
      | undef => simp [jsNullish] at hd
      | null => simp [jsNullish] at hd
      | bool b => simp [buildDoctorOptions, getProp, ih1, ih2]
      | num n => simp [buildDoctorOptions, getProp, ih1, ih2]
      | str s => simp [buildDoctorOptions, getProp, ih1, ih2]
      | arr es => simp [buildDoctorOptions, getProp, ih1, ih2]
      | obj fs => simp [buildDoctorOptions, getProp, ih1, ih2]

/-- C10 amended: for every JSON-array response with no `null` element
(`undefined` cannot occur in parsed JSON), the response processing completes
without throwing; when the array is non-empty it produces exactly one option
per array element — records missing the id or name field yield options with
the string `undefined` in the affected slot rather than aborting — while an
empty array yields the single "no doctors" placeholder.  An element equal to
JSON `null` instead throws at that element, truncating the rebuild. -/
theorem json_array_processing_total (data : List JsValue)
    (h : data.all (fun v => !jsNullish v) = true) :
    (respCallback data).2 = false ∧
    (data ≠ [] → (respCallback data).1.length = data.length) := by
  have h' : ∀ v ∈ data, jsNullish v = false := by
    intro v hv
    have hv' := List.all_eq_true.mp h v hv
    simpa using hv'
  cases data with
  | nil => simp [respCallback]
  | cons d rest =>
      obtain ⟨h1, h2⟩ := buildDoctorOptions_total (d :: rest) h'
      constructor
      · simpa [respCallback] using h1
      · intro _
        simpa [respCallback] using h2

/-- Witness for the amended C10: a three-element array whose records are
malformed in several ways (string element, record with no fields) is still
rebuilt into three options. -/
theorem json_array_processing_total_witness :
    ([JsValue.obj [("id", JsValue.num 7), ("name", JsValue.str "Dr")],
      JsValue.str "x", JsValue.obj []].all (fun v => !jsNullish v) = true) ∧
    (respCallback [JsValue.obj [("id", JsValue.num 7), ("name", JsValue.str "Dr")],
      JsValue.str "x", JsValue.obj []]).2 = false ∧
    (respCallback [JsValue.obj [("id", JsValue.num 7), ("name", JsValue.str "Dr")],
      JsValue.str "x", JsValue.obj []]).1.length
      = [JsValue.obj [("id", JsValue.num 7), ("name", JsValue.str "Dr")],
         JsValue.str "x", JsValue.obj []].length :=
  ⟨rfl,
   (json_array_processing_total
     [JsValue.obj [("id", JsValue.num 7), ("name", JsValue.str "Dr")],
      JsValue.str "x", JsValue.obj []] rfl).1,
   (json_array_processing_total
     [JsValue.obj [("id", JsValue.num 7), ("name", JsValue.str "Dr")],
      JsValue.str "x", JsValue.obj []] rfl).2 (List.cons_ne_nil _ _)⟩

end Clinic
